import Mathlib

/-!
Shallow embedding of the WiFiEnterprise Arduino library
(src/WiFiEnterprise.cpp, src/WiFiEnterprise.h).

The library is a thin wrapper over the ESP32 WiFi/EAP driver.  The wrapper
object holds two booleans (`_debugEnabled`, `_connected`).  The external
driver is modelled by an environment `Env`: its status register is a
function of absolute time in milliseconds (time advances only through the
`delay` calls of the source), and its assigned-address query likewise.
Mutating driver calls issued by the wrapper are recorded as a trace of
`Ev` events; text written to `Serial` is recorded as a list of strings.
-/

/-- The platform's `wl_status_t` enumeration (values 0..6 on ESP32). -/
inductive Wl_status where
  | idle
  | noSsidAvail
  | scanCompleted
  | connected
  | connectFailed
  | connectionLost
  | disconnected
deriving DecidableEq, Repr

/-- Numeric value of a `wl_status_t` code, used by `String(WiFi.status())`. -/
def Wl_status.code : Wl_status → Nat
  | .idle => 0
  | .noSsidAvail => 1
  | .scanCompleted => 2
  | .connected => 3
  | .connectFailed => 4
  | .connectionLost => 5
  | .disconnected => 6

/-- A C string is a byte sequence; `strlen` is its length. -/
abbrev Cstr : Type := List Nat

/-- `strlen` of a C string. -/
def Cstr.strlen (s : Cstr) : Nat := List.length s

/-- Rendering of a C string into the diagnostic text sink. -/
def Cstr.render (s : Cstr) : String := String.mk (List.map Char.ofNat s)

/-- `WIFI_STA`, the station-mode selector passed to `WiFi.mode`. -/
def WIFI_STA : Nat := 1

/-- Mutating driver operations issued by the wrapper, in issue order. -/
inductive Ev where
  /-- `WiFi.disconnect(wifioff)` -/
  | disconnect (wifioff : Bool)
  /-- `WiFi.mode(m)` -/
  | setMode (m : Nat)
  /-- `esp_wifi_sta_wpa2_ent_set_identity(buf, len)` -/
  | setIdentity (buf : Cstr) (len : Nat)
  /-- `esp_wifi_sta_wpa2_ent_set_username(buf, len)` -/
  | setUsername (buf : Cstr) (len : Nat)
  /-- `esp_wifi_sta_wpa2_ent_set_password(buf, len)` -/
  | setPassword (buf : Cstr) (len : Nat)
  /-- `esp_wifi_sta_wpa2_ent_enable()` -/
  | entEnable
  /-- `esp_wifi_sta_wpa2_ent_disable()` -/
  | entDisable
  /-- `WiFi.begin(ssid)` -/
  | wifiBegin (ssid : Cstr)
deriving DecidableEq, Repr

/-- The external driver, as the wrapper can observe it: a status register
read at a point in time, and an assigned-address query read at a point in
time.  Time is in milliseconds and advances only through `delay`. -/
structure Env where
  statusAt : Nat → Wl_status
  localIPAt : Nat → Nat

/-- The wrapper's two member booleans (`_debugEnabled`, `_connected`). -/
structure WState where
  debugEnabled : Bool
  connected : Bool
deriving DecidableEq, Repr

/-- Everything a call to `begin` produces: the returned boolean, the new
member state, the trace of mutating driver calls, the diagnostic text
lines, and the time at which the call returns. -/
structure BeginResult where
  ret : Bool
  state : WState
  ops : List Ev
  serial : List String
  endTime : Nat
deriving DecidableEq, Repr

/-- Everything a call to `end` produces. -/
structure EndResult where
  state : WState
  ops : List Ev
  serial : List String
deriving DecidableEq, Repr

/-- `debugPrint(message)` / `debugPrint(message, value)`: one line into the
diagnostic sink when the debug flag is set, nothing otherwise. -/
def dbgLine (dbg : Bool) (s : String) : List String :=
  if dbg then [s] else []

/-- The polling loop of `begin`, counted in iterations: starting after `k`
completed iterations (so at absolute time `start + 500 * k`), run
`while (WiFi.status() != WL_CONNECTED && (millis() - startTime) < timeout) delay(500);`
and return the total number of completed iterations.  `fuel` bounds the
recursion; 40 units suffice because the guard fails once `500 * k` reaches
the 20000ms timeout. -/
def pollSteps (env : Env) (start : Nat) : Nat → Nat → Nat
  | k, 0 => k
  | k, fuel + 1 =>
    if env.statusAt (start + 500 * k) ≠ Wl_status.connected ∧ 500 * k < 20000 then
      pollSteps env start (k + 1) fuel
    else
      k

/-- Number of iterations the polling loop of `begin` performs when polling
starts at absolute time `start`. -/
def pollIters (env : Env) (start : Nat) : Nat :=
  pollSteps env start 0 40

/-- `WiFiEnterpriseClass::begin(ssid, username, password, enableDebug)`,
entered at absolute time `t0` with member state `st`. -/
def WiFiEnterpriseClass.begin (env : Env) (t0 : Nat) (st : WState)
    (ssid username password : Cstr) (enableDebug : Bool) : BeginResult :=
  -- _debugEnabled = enableDebug;
  let dbg := enableDebug
  let serial1 :=
    dbgLine dbg "WiFiEnterprise: Starting connection to WPA2-Enterprise network"
      ++ dbgLine dbg ("SSID: " ++ ssid.render)
      ++ dbgLine dbg ("Username: " ++ username.render)
  -- WiFi.disconnect(true); delay(1000); WiFi.mode(WIFI_STA);
  let ops1 : List Ev := [Ev.disconnect true, Ev.setMode WIFI_STA]
  let serial2 := dbgLine dbg "WiFiEnterprise: Configuring WPA2-Enterprise settings"
  -- esp_wifi_sta_wpa2_ent_set_identity/username/password, then enable
  let ops2 : List Ev :=
    [Ev.setIdentity username username.strlen,
     Ev.setUsername username username.strlen,
     Ev.setPassword password password.strlen,
     Ev.entEnable]
  let serial3 := dbgLine dbg "WiFiEnterprise: Attempting to connect..."
  -- WiFi.begin(ssid);
  let ops3 : List Ev := [Ev.wifiBegin ssid]
  -- startTime = millis();  (the 1000ms settle delay has elapsed)
  let startTime := t0 + 1000
  let iters := pollIters env startTime
  let tEnd := startTime + 500 * iters
  -- one "." per loop iteration when debugging
  let serial4 := if dbg then List.replicate iters "." else []
  if env.statusAt tEnd = Wl_status.connected then
    { ret := true
      state := { debugEnabled := dbg, connected := true }
      ops := ops1 ++ ops2 ++ ops3
      serial := serial1 ++ serial2 ++ serial3 ++ serial4
        ++ dbgLine dbg "\nWiFiEnterprise: Connected successfully!"
        ++ dbgLine dbg ("IP Address: " ++ toString (env.localIPAt tEnd))
      endTime := tEnd }
  else
    { ret := false
      state := { debugEnabled := dbg, connected := false }
      ops := ops1 ++ ops2 ++ ops3 ++ [Ev.entDisable]
      serial := serial1 ++ serial2 ++ serial3 ++ serial4
        ++ dbgLine dbg "\nWiFiEnterprise: Connection failed!"
        ++ dbgLine dbg ("Status: " ++ toString (env.statusAt tEnd).code)
      endTime := tEnd }

/-- `WiFiEnterpriseClass::end()` (named `end_` because `end` is reserved). -/
def WiFiEnterpriseClass.end_ (st : WState) : EndResult :=
  { state := { st with connected := false }
    ops := [Ev.entDisable, Ev.disconnect true]
    serial := dbgLine st.debugEnabled "WiFiEnterprise: Disconnecting..."
      ++ dbgLine st.debugEnabled "WiFiEnterprise: Disconnected" }

/-- `WiFiEnterpriseClass::isConnected()`: live status query compared with
`WL_CONNECTED`; the member state is passed through untouched. -/
def WiFiEnterpriseClass.isConnected (env : Env) (t : Nat) (st : WState) :
    Bool × WState :=
  (decide (env.statusAt t = Wl_status.connected), st)

/-- `WiFiEnterpriseClass::status()`: passthrough of `WiFi.status()`. -/
def WiFiEnterpriseClass.status (env : Env) (t : Nat) (st : WState) :
    Wl_status × WState :=
  (env.statusAt t, st)

/-- `WiFiEnterpriseClass::localIP()`: passthrough of `WiFi.localIP()`. -/
def WiFiEnterpriseClass.localIP (env : Env) (t : Nat) (st : WState) :
    Nat × WState :=
  (env.localIPAt t, st)

/-- `WiFiEnterpriseClass::setDebug(enable)`. -/
def WiFiEnterpriseClass.setDebug (st : WState) (enable : Bool) : WState :=
  { st with debugEnabled := enable }

/-- Modelled from the spec: the external ESP-IDF driver is stateful; the
spec (§6) lists the configuration it holds.  The wrapper's events act on
it in the obvious way: disconnect clears the association, the setters
store their arguments, enable/disable toggle enterprise mode, and
`WiFi.begin(ssid)` starts an association attempt with that SSID. -/
structure DriverState where
  entEnabled : Bool
  mode : Nat
  identity : Option (Cstr × Nat)
  username : Option (Cstr × Nat)
  password : Option (Cstr × Nat)
  assoc : Option Cstr
deriving DecidableEq, Repr

/-- Modelled from the spec: effect of one wrapper-issued driver call on the
external driver's configuration state. -/
def DriverState.applyOp (d : DriverState) : Ev → DriverState
  | Ev.disconnect _ => { d with assoc := none }
  | Ev.setMode m => { d with mode := m }
  | Ev.setIdentity b l => { d with identity := some (b, l) }
  | Ev.setUsername b l => { d with username := some (b, l) }
  | Ev.setPassword b l => { d with password := some (b, l) }
  | Ev.entEnable => { d with entEnabled := true }
  | Ev.entDisable => { d with entEnabled := false }
  | Ev.wifiBegin s => { d with assoc := some s }

/-- Folding a whole trace of driver calls over a driver state. -/
def DriverState.applyOps (d : DriverState) (ops : List Ev) : DriverState :=
  List.foldl DriverState.applyOp d ops

/-- The five-step configuration sequence `begin` always issues before it
starts polling: force-disconnect, station mode, identity/username/password,
enterprise enable, association initiation. -/
def coreCalls (ssid username password : Cstr) : List Ev :=
  [Ev.disconnect true, Ev.setMode WIFI_STA,
   Ev.setIdentity username username.strlen,
   Ev.setUsername username username.strlen,
   Ev.setPassword password password.strlen,
   Ev.entEnable, Ev.wifiBegin ssid]

/-! ### Lemmas about the polling loop -/

theorem pollSteps_ge (env : Env) (start : Nat) :
    ∀ fuel k, k ≤ pollSteps env start k fuel := by
  intro fuel
  induction fuel with
  | zero => intro k; simp [pollSteps]
  | succ n ih =>
    intro k
    simp only [pollSteps]
    split
    · exact Nat.le_trans (Nat.le_succ k) (ih (k + 1))
    · exact Nat.le_refl k

theorem pollSteps_le (env : Env) (start : Nat) :
    ∀ fuel k, pollSteps env start k fuel ≤ k + fuel := by
  intro fuel
  induction fuel with
  | zero => intro k; simp [pollSteps]
  | succ n ih =>
    intro k
    simp only [pollSteps]
    split
    · exact Nat.le_trans (ih (k + 1)) (by omega)
    · omega

/-- At the loop's exit point the guard is false: either the status register
reads connected, or the 20000ms timeout has elapsed. -/
theorem pollSteps_exit (env : Env) (start : Nat) :
    ∀ fuel k, 40 ≤ k + fuel →
      env.statusAt (start + 500 * pollSteps env start k fuel) = Wl_status.connected ∨
        20000 ≤ 500 * pollSteps env start k fuel := by
  intro fuel
  induction fuel with
  | zero =>
    intro k hk
    simp only [pollSteps]
    exact Or.inr (by omega)
  | succ n ih =>
    intro k hk
    simp only [pollSteps]
    split
    · exact ih (k + 1) (by omega)
    · rename_i h
      rcases not_and_or.mp h with h | h
      · exact Or.inl (not_not.mp h)
      · exact Or.inr (by omega)

/-- Before the loop's exit point the guard held at every iteration: the
status register did not read connected and the timeout had not elapsed. -/
theorem pollSteps_min (env : Env) (start : Nat) :
    ∀ fuel k j, k ≤ j → j < pollSteps env start k fuel →
      env.statusAt (start + 500 * j) ≠ Wl_status.connected ∧ 500 * j < 20000 := by
  intro fuel
  induction fuel with
  | zero =>
    intro k j hkj hj
    simp only [pollSteps] at hj
    exact absurd hj (by omega)
  | succ n ih =>
    intro k j hkj hj
    simp only [pollSteps] at hj
    by_cases h : env.statusAt (start + 500 * k) ≠ Wl_status.connected ∧ 500 * k < 20000
    · rw [if_pos h] at hj
      rcases Nat.lt_or_ge j (k + 1) with hjk | hjk
      · have : j = k := by omega
        exact this ▸ h
      · exact ih (k + 1) j hjk hj
    · rw [if_neg h] at hj
      omega

theorem pollIters_le (env : Env) (start : Nat) : pollIters env start ≤ 40 :=
  pollSteps_le env start 40 0

theorem pollIters_exit (env : Env) (start : Nat) :
    env.statusAt (start + 500 * pollIters env start) = Wl_status.connected ∨
      20000 ≤ 500 * pollIters env start :=
  pollSteps_exit env start 40 0 (by omega)

theorem pollIters_min (env : Env) (start : Nat) :
    ∀ j, j < pollIters env start →
      env.statusAt (start + 500 * j) ≠ Wl_status.connected ∧ 500 * j < 20000 :=
  fun j hj => pollSteps_min env start 40 0 j (Nat.zero_le j) hj

/-! ### Projections of `begin` -/

theorem begin_endTime (env : Env) (t0 : Nat) (st : WState)
    (s u p : Cstr) (d : Bool) :
    (WiFiEnterpriseClass.begin env t0 st s u p d).endTime
      = t0 + 1000 + 500 * pollIters env (t0 + 1000) := by
  simp only [WiFiEnterpriseClass.begin]
  split <;> rfl

theorem begin_ret (env : Env) (t0 : Nat) (st : WState)
    (s u p : Cstr) (d : Bool) :
    (WiFiEnterpriseClass.begin env t0 st s u p d).ret
      = decide (env.statusAt (t0 + 1000 + 500 * pollIters env (t0 + 1000))
          = Wl_status.connected) := by
  simp only [WiFiEnterpriseClass.begin]
  split <;> rename_i h <;> simp [h]

theorem begin_connected (env : Env) (t0 : Nat) (st : WState)
    (s u p : Cstr) (d : Bool) :
    (WiFiEnterpriseClass.begin env t0 st s u p d).state.connected
      = (WiFiEnterpriseClass.begin env t0 st s u p d).ret := by
  simp only [WiFiEnterpriseClass.begin]
  split <;> rfl

theorem begin_debug (env : Env) (t0 : Nat) (st : WState)
    (s u p : Cstr) (d : Bool) :
    (WiFiEnterpriseClass.begin env t0 st s u p d).state.debugEnabled = d := by
  simp only [WiFiEnterpriseClass.begin]
  split <;> rfl

theorem begin_ops (env : Env) (t0 : Nat) (st : WState)
    (s u p : Cstr) (d : Bool) :
    (WiFiEnterpriseClass.begin env t0 st s u p d).ops
      = coreCalls s u p ++
          (if (WiFiEnterpriseClass.begin env t0 st s u p d).ret = true then []
           else [Ev.entDisable]) := by
  rw [begin_ret]
  simp only [WiFiEnterpriseClass.begin]
  split <;> rename_i h <;> simp [coreCalls, h]

theorem begin_serial_off (env : Env) (t0 : Nat) (st : WState) (s u p : Cstr) :
    (WiFiEnterpriseClass.begin env t0 st s u p false).serial = [] := by
  simp only [WiFiEnterpriseClass.begin]
  split <;> simp [dbgLine]

/-- The loop observes connected iff some poll within the 20000ms window
(bounds inclusive: the final guard evaluation happens at 20000ms elapsed)
reads connected. -/
theorem pollIters_connected_iff (env : Env) (start : Nat) :
    env.statusAt (start + 500 * pollIters env start) = Wl_status.connected ↔
      ∃ k, k ≤ 40 ∧ env.statusAt (start + 500 * k) = Wl_status.connected := by
  constructor
  · intro h
    exact ⟨pollIters env start, pollIters_le env start, h⟩
  · rintro ⟨k, hk40, hk⟩
    rcases Nat.lt_or_ge (pollIters env start) k with hlt | hge
    · rcases pollIters_exit env start with h | h
      · exact h
      · exact absurd hk40 (by have := pollIters_le env start; omega)
    · rcases Nat.eq_or_lt_of_le hge with heq | hlt
      · exact heq ▸ hk
      · exact absurd hk (pollIters_min env start k hlt).1

/-! ### Concrete driver behaviours used to evaluate the development -/

/-- A driver behaviour whose status register first reads connected exactly
when the 20000ms timeout elapses: with `begin` entered at t=0, polling
starts at t=1000ms and the register flips to connected at t=21000ms, i.e.
at elapsed time 20000ms and not at any earlier poll. -/
def envLate : Env where
  statusAt := fun t => if 21000 ≤ t then Wl_status.connected else Wl_status.disconnected
  localIPAt := fun _ => 0

/-- Whether the status register reads connected at a poll made strictly
before the 20000ms timeout elapses (polls happen at elapsed times
`500 * k`, and `500 * k < 20000` iff `k < 40`). -/
def reportsBeforeTimeout (env : Env) (start : Nat) : Bool :=
  List.any (List.range 40) fun k =>
    decide (env.statusAt (start + 500 * k) = Wl_status.connected)

/-! ### The claims -/

/-- C1, counterexample: a driver whose status register never reads
connected at any poll strictly before the 20000ms timeout still makes
`begin` return `true` with `connected = true` and without the
enterprise-mode disable call, because the final status check happens once
20000ms have already elapsed.  The claim's otherwise-branch (return
`false`, disable enterprise mode) is therefore not taken. -/
theorem C1_counterexample :
    reportsBeforeTimeout envLate 1000 = false ∧
    (WiFiEnterpriseClass.begin envLate 0 ⟨false, false⟩ [67] [117] [112] false).ret = true ∧
    (WiFiEnterpriseClass.begin envLate 0 ⟨false, false⟩ [67] [117] [112] false).state.connected
      = true ∧
    Ev.entDisable ∉ (WiFiEnterpriseClass.begin envLate 0 ⟨false, false⟩ [67] [117] [112] false).ops := by
  decide

/-- C1 (amended): `begin` returns `true` and sets `connected = true` iff
the status register reads connected at one of the status checks, which
happen every 500ms from the start of polling up to and including the final
check made once 20000ms have elapsed; otherwise it returns `false`, sets
`connected = false`, and issues the enterprise-mode disable call exactly
on that failure path. -/
theorem C1_begin_result (env : Env) (t0 : Nat) (st : WState)
    (s u p : Cstr) (d : Bool) :
    ((WiFiEnterpriseClass.begin env t0 st s u p d).ret = true ↔
      ∃ k, k ≤ 40 ∧ env.statusAt (t0 + 1000 + 500 * k) = Wl_status.connected) ∧
    (WiFiEnterpriseClass.begin env t0 st s u p d).state.connected
      = (WiFiEnterpriseClass.begin env t0 st s u p d).ret ∧
    (WiFiEnterpriseClass.begin env t0 st s u p d).ops
      = coreCalls s u p ++
        (if (WiFiEnterpriseClass.begin env t0 st s u p d).ret = true then []
         else [Ev.entDisable]) := by
  refine ⟨?_, begin_connected env t0 st s u p d, begin_ops env t0 st s u p d⟩
  rw [begin_ret]
  simp only [decide_eq_true_eq]
  exact pollIters_connected_iff env (t0 + 1000)

/-- C2: every call to `begin`, whatever its inputs and whatever the driver
reports, issues force-disconnect, station-mode select, EAP
identity/username/password setters, enterprise enable, and association
initiation, in that fixed order and each exactly once; no outcome skips or
reorders them (the only op ever issued after them is the failure-path
enterprise disable, which is none of the listed steps). -/
theorem C2_begin_call_sequence (env : Env) (t0 : Nat) (st : WState)
    (s u p : Cstr) (d : Bool) :
    ∃ tail, (WiFiEnterpriseClass.begin env t0 st s u p d).ops
        = [Ev.disconnect true, Ev.setMode WIFI_STA,
           Ev.setIdentity u u.strlen, Ev.setUsername u u.strlen,
           Ev.setPassword p p.strlen, Ev.entEnable, Ev.wifiBegin s] ++ tail ∧
      (tail = [] ∨ tail = [Ev.entDisable]) := by
  refine ⟨if (WiFiEnterpriseClass.begin env t0 st s u p d).ret = true then []
          else [Ev.entDisable], ?_, ?_⟩
  · exact begin_ops env t0 st s u p d
  · split
    · exact Or.inl rfl
    · exact Or.inr rfl

/-- C3: `begin` terminates for every driver behaviour: polling starts
after a fixed 1000ms settle delay, checks the status register every 500ms,
and stops at the first check that reads connected or once 20000ms have
elapsed, so the loop runs at most `20000 / 500` iterations. -/
theorem C3_begin_polling_bounded (env : Env) (t0 : Nat) (st : WState)
    (s u p : Cstr) (d : Bool) :
    ∃ k, k ≤ 20000 / 500 ∧
      (WiFiEnterpriseClass.begin env t0 st s u p d).endTime = t0 + 1000 + 500 * k ∧
      (∀ j, j < k →
        env.statusAt (t0 + 1000 + 500 * j) ≠ Wl_status.connected ∧ 500 * j < 20000) ∧
      (env.statusAt (t0 + 1000 + 500 * k) = Wl_status.connected ∨ 20000 ≤ 500 * k) := by
  exact ⟨pollIters env (t0 + 1000), pollIters_le env (t0 + 1000),
    begin_endTime env t0 st s u p d, pollIters_min env (t0 + 1000),
    pollIters_exit env (t0 + 1000)⟩

/-- C4: `isConnected` returns exactly the predicate "the live status query
equals connected"; its result does not depend on the cached `connected`
field and the member state is left unchanged. -/
theorem C4_isConnected_live_query (env : Env) (t : Nat) (st st' : WState) :
    (WiFiEnterpriseClass.isConnected env t st).1
        = decide (env.statusAt t = Wl_status.connected) ∧
    (WiFiEnterpriseClass.isConnected env t st).2 = st ∧
    (WiFiEnterpriseClass.isConnected env t st).1
        = (WiFiEnterpriseClass.isConnected env t st').1 :=
  ⟨rfl, rfl, rfl⟩

/-- C5: two runs of `begin` (or of `end`) that differ only in the debug
setting — the stored flag and/or the `enableDebug` argument — and see the
same driver behaviour produce the same return value, the same final
`connected` field, the same driver-call trace, and return at the same
time; the debug setting only controls the diagnostic text. -/
theorem C5_debug_noninterference (env : Env) (t0 : Nat) (b b' c : Bool)
    (s u p : Cstr) (d d' : Bool) :
    ((WiFiEnterpriseClass.begin env t0 ⟨b, c⟩ s u p d).ret
        = (WiFiEnterpriseClass.begin env t0 ⟨b', c⟩ s u p d').ret) ∧
    ((WiFiEnterpriseClass.begin env t0 ⟨b, c⟩ s u p d).state.connected
        = (WiFiEnterpriseClass.begin env t0 ⟨b', c⟩ s u p d').state.connected) ∧
    ((WiFiEnterpriseClass.begin env t0 ⟨b, c⟩ s u p d).ops
        = (WiFiEnterpriseClass.begin env t0 ⟨b', c⟩ s u p d').ops) ∧
    ((WiFiEnterpriseClass.begin env t0 ⟨b, c⟩ s u p d).endTime
        = (WiFiEnterpriseClass.begin env t0 ⟨b', c⟩ s u p d').endTime) ∧
    ((WiFiEnterpriseClass.end_ ⟨b, c⟩).ops = (WiFiEnterpriseClass.end_ ⟨b', c⟩).ops) ∧
    ((WiFiEnterpriseClass.end_ ⟨b, c⟩).state.connected
        = (WiFiEnterpriseClass.end_ ⟨b', c⟩).state.connected) := by
  have hret : (WiFiEnterpriseClass.begin env t0 ⟨b, c⟩ s u p d).ret
      = (WiFiEnterpriseClass.begin env t0 ⟨b', c⟩ s u p d').ret := by
    rw [begin_ret, begin_ret]
  refine ⟨hret, ?_, ?_, ?_, rfl, rfl⟩
  · rw [begin_connected, begin_connected, hret]
  · rw [begin_ops, begin_ops, hret]
  · rw [begin_endTime, begin_endTime]

/-- C6: `end` is idempotent: from any member state and any driver state,
calling it twice yields the same member state and the same final driver
state as calling it once, and that final driver state has enterprise mode
disabled and no association, with the `connected` field false. -/
theorem C6_end_idempotent (st : WState) (d0 : DriverState) :
    (WiFiEnterpriseClass.end_ (WiFiEnterpriseClass.end_ st).state).state
        = (WiFiEnterpriseClass.end_ st).state ∧
    DriverState.applyOps (DriverState.applyOps d0 (WiFiEnterpriseClass.end_ st).ops)
        (WiFiEnterpriseClass.end_ (WiFiEnterpriseClass.end_ st).state).ops
      = DriverState.applyOps d0 (WiFiEnterpriseClass.end_ st).ops ∧
    (DriverState.applyOps d0 (WiFiEnterpriseClass.end_ st).ops).entEnabled = false ∧
    (DriverState.applyOps d0 (WiFiEnterpriseClass.end_ st).ops).assoc = none ∧
    (WiFiEnterpriseClass.end_ st).state.connected = false := by
  simp [WiFiEnterpriseClass.end_, DriverState.applyOps, DriverState.applyOp]

/-- C7: `status` and `localIP` are pure passthroughs: whatever the
driver's status query or assigned-address query reads at the call's time,
the accessor returns it unmodified and leaves the member state unchanged. -/
theorem C7_status_localIP_passthrough (env : Env) (t : Nat) (st : WState) :
    WiFiEnterpriseClass.status env t st = (env.statusAt t, st) ∧
    WiFiEnterpriseClass.localIP env t st = (env.localIPAt t, st) :=
  ⟨rfl, rfl⟩

/-- C8: in every call to `begin`, the EAP identity programmed into the
driver is exactly the username argument with its `strlen`: the identity
setter is invoked precisely with the buffer/length pair `(username,
strlen(username))`, the same pair the username setter receives. -/
theorem C8_identity_equals_username (env : Env) (t0 : Nat) (st : WState)
    (s u p : Cstr) (d : Bool) (b : Cstr) (l : Nat) :
    (Ev.setIdentity b l ∈ (WiFiEnterpriseClass.begin env t0 st s u p d).ops ↔
        b = u ∧ l = u.strlen) ∧
    (Ev.setUsername b l ∈ (WiFiEnterpriseClass.begin env t0 st s u p d).ops ↔
        b = u ∧ l = u.strlen) := by
  constructor <;> (rw [begin_ops]; split <;> simp [coreCalls])

/-- C9: `begin` assigns its `enableDebug` argument to the debug flag as
its first action, so a prior `setDebug(true)` is discarded: a subsequent
`begin` with `enableDebug = false` emits no diagnostic text and leaves the
flag false; in general the flag after `begin` equals the argument. -/
theorem C9_begin_overwrites_debug (env : Env) (t0 : Nat) (st : WState)
    (s u p : Cstr) (d : Bool) :
    (WiFiEnterpriseClass.begin env t0
        (WiFiEnterpriseClass.setDebug st true) s u p false).serial = [] ∧
    (WiFiEnterpriseClass.begin env t0
        (WiFiEnterpriseClass.setDebug st true) s u p false).state.debugEnabled = false ∧
    (WiFiEnterpriseClass.begin env t0 st s u p d).state.debugEnabled = d :=
  ⟨begin_serial_off env t0 (WiFiEnterpriseClass.setDebug st true) s u p,
   begin_debug env t0 (WiFiEnterpriseClass.setDebug st true) s u p false,
   begin_debug env t0 st s u p d⟩

/-- C10: `begin` issues the enterprise-mode disable call exactly when it
fails, so on the success path enterprise mode is left enabled in the
driver; `end` always issues the disable call. -/
theorem C10_enterprise_disable_only_on_failure (env : Env) (t0 : Nat)
    (st : WState) (s u p : Cstr) (d : Bool) (d0 : DriverState) :
    (Ev.entDisable ∈ (WiFiEnterpriseClass.begin env t0 st s u p d).ops ↔
        (WiFiEnterpriseClass.begin env t0 st s u p d).ret = false) ∧
    (DriverState.applyOps d0 (WiFiEnterpriseClass.begin env t0 st s u p d).ops).entEnabled
        = (WiFiEnterpriseClass.begin env t0 st s u p d).ret ∧
    Ev.entDisable ∈ (WiFiEnterpriseClass.end_ st).ops := by
  rcases Bool.eq_false_or_eq_true (WiFiEnterpriseClass.begin env t0 st s u p d).ret
    with hr | hr <;>
    rw [begin_ops, hr] <;>
    simp [coreCalls, DriverState.applyOps, DriverState.applyOp, WiFiEnterpriseClass.end_]
